import Mathlib

/-!
Verification of the DSLD supplement-database sync worker (`src/main.py`)
against its natural-language specification.

The development shallowly embeds the script's four components:
the Archive Fetcher (`download_and_unzip_data`), the Table Builder
(`combine_csvs_to_dataframe`), the Sync Writer
(`upload_dataframe_to_supabase`) and the Orchestrator (`main`), together
with the module-level configuration guard.

Modelling conventions:
* A pandas cell is a `Cell`: either a concrete value, the library's
  not-a-number sentinel `npNaN` (numpy nan), the missing sentinel `pdNA`
  (pandas NA), or the uniform null marker `pyNone` (Python None).
* A DataFrame is its list of rows, each row an association list from
  column name to cell, mirroring `to_dict` with records orientation.
* Network and remote-store effects are represented by their observable
  traces: the fetcher's input is an abstract `FetchInput` (request error,
  bad zip, or a member listing), and the writer records the upsert calls
  it issues.  An exception raised by the k-th upsert call is modelled by
  a predicate `fails : Nat -> Bool` on batch indices.
-/

/-- A single cell value as pandas holds it. -/
inductive Cell where
  /-- The pandas missing-value sentinel pd.NA. -/
  | pdNA : Cell
  /-- The numpy not-a-number sentinel np.nan. -/
  | npNaN : Cell
  /-- Python None, the uniform null marker sent to the store. -/
  | pyNone : Cell
  /-- Any concrete (string-rendered) value. -/
  | val : String → Cell
deriving DecidableEq, Repr

/-- A row-record: an association list from column name to cell, as
produced by pandas to_dict with records orientation. -/
abbrev Row := List (String × Cell)

/-- A DataFrame, reduced to the data the script observes: its rows. -/
structure DataFrame where
  rows : List Row
deriving DecidableEq, Repr

instance : Inhabited DataFrame := ⟨⟨[]⟩⟩

/-- Python list prefix test on characters (helper for substring test). -/
def listHasPrefix : List Char → List Char → Bool
  | [], _ => true
  | _ :: _, [] => false
  | a :: as, b :: bs => a == b && listHasPrefix as bs

/-- Python substring containment on characters. -/
def listHasSub (needle : List Char) : List Char → Bool
  | [] => listHasPrefix needle []
  | c :: rest => listHasPrefix needle (c :: rest) || listHasSub needle rest

/-- Python's `needle in hay` substring test on strings. -/
def strContains (needle hay : String) : Bool :=
  listHasSub needle.toList hay.toList

/-- Python's s.endswith(suffix) test: the suffix, reversed, is a prefix of
the reversed string. -/
def strEndsWith (suffix s : String) : Bool :=
  listHasPrefix suffix.toList.reverse s.toList.reverse

/-- The marker looked for in member names (src/main.py line 16). -/
def TARGET_FILENAME_CONTAINS : String := "ProductOverview"

/-- One member entry of the zip archive, as `zip_file.infolist()` lists it. -/
structure MemberInfo where
  filename : String
deriving DecidableEq, Repr

/-- The fetcher's possible environments: the request raises, the payload is
not a valid zip, or a well-formed archive with the given member listing. -/
inductive FetchInput where
  /-- requests.get raises (network error or raise_for_status). -/
  | requestError : FetchInput
  /-- zipfile.ZipFile raises BadZipFile. -/
  | badZip : FetchInput
  /-- A well-formed archive with its member listing in archive order. -/
  | ok : List MemberInfo → FetchInput

/-- The selection test of src/main.py line 43: the name contains the target
marker and ends with the csv extension. -/
def matchesTarget (name : String) : Bool :=
  strContains TARGET_FILENAME_CONTAINS name && strEndsWith ".csv" name

/-- Embedding of `download_and_unzip_data` (src/main.py lines 29-59): the
returned content handles are identified by the member names passed to
`zip_file.open`.  The two except clauses return the empty list. -/
def download_and_unzip_data : FetchInput → List String
  | .requestError => []
  | .badZip => []
  | .ok members =>
      let csv_files := (members.filter (fun m => matchesTarget m.filename)).map
        (fun m => m.filename)
      if csv_files.isEmpty then [] else csv_files

/-- The identity column mapping of src/main.py lines 81-94. -/
def column_mapping : List (String × String) :=
  [("URL", "URL"),
   ("DSLD ID", "DSLD ID"),
   ("Product Name", "Product Name"),
   ("Brand Name", "Brand Name"),
   ("Bar Code", "Bar Code"),
   ("Net Contents", "Net Contents"),
   ("Serving Size", "Serving Size"),
   ("Product Type [LanguaL]", "Product Type [LanguaL]"),
   ("Supplement Form [LanguaL]", "Supplement Form [LanguaL]"),
   ("Date Entered into DSLD", "Date Entered into DSLD"),
   ("Market Status", "Market Status"),
   ("Suggested Use", "Suggested Use")]

/-- pandas rename on one column name: mapped names are replaced, others kept. -/
def renameColumn (c : String) : String :=
  (column_mapping.lookup c).getD c

/-- pandas DataFrame.rename over the whole frame (column axis). -/
def dfRename (df : DataFrame) : DataFrame :=
  ⟨df.rows.map (fun r => r.map (fun p => (renameColumn p.1, p.2)))⟩

/-- Embedding of `combine_csvs_to_dataframe` (src/main.py lines 62-98).
`read_csv` stands for pandas read_csv applied to one content handle. -/
def combine_csvs_to_dataframe (csv_files : List String)
    (read_csv : String → DataFrame) : DataFrame :=
  if csv_files.isEmpty then ⟨[]⟩
  else
    let dataframes := csv_files.map read_csv
    let combined_df : DataFrame := ⟨(dataframes.map DataFrame.rows).flatten⟩
    dfRename combined_df

/-- The replacement dict of src/main.py line 113: pd.NA and np.nan are both
mapped to None, all other cells kept. -/
def replaceCell : Cell → Cell
  | .pdNA => .pyNone
  | .npNaN => .pyNone
  | c => c

/-- pandas DataFrame.replace with that dict (returns a fresh frame; the
source does not pass the inplace flag). -/
def dfReplace (df : DataFrame) : DataFrame :=
  ⟨df.rows.map (fun r => r.map (fun p => (p.1, replaceCell p.2)))⟩

/-- pandas to_dict with records orientation: the list of row-records. -/
def to_records (df : DataFrame) : List Row :=
  df.rows

/-- The writer's batch size (src/main.py line 116). -/
def batch_size : Nat := 500

/-- Python's range(start, stop, step) for a positive step. -/
def pyRange (start stop step : Nat) : List Nat :=
  (List.range ((stop - start + step - 1) / step)).map (fun k => start + k * step)

/-- The batches the loop of src/main.py lines 119-120 slices off: for each
loop index i of range(0, total, batch_size), the slice records[i : i+batch_size]. -/
def batchesOf (records : List Row) : List (List Row) :=
  (pyRange 0 records.length batch_size).map
    (fun i => ((records.drop i).take batch_size))

/-- One upsert call as issued on src/main.py line 129, with the literal
table name and on_conflict argument of the source. -/
structure UpsertCall where
  tableName : String
  onConflict : String
  batch : List Row
deriving DecidableEq, Repr

instance : Inhabited UpsertCall := ⟨⟨"", "", []⟩⟩

/-- The upsert call the source builds for one batch (src/main.py line 129). -/
def mkCall (b : List Row) : UpsertCall :=
  ⟨"dsld_supplements", "\"DSLD ID\"", b⟩

/-- The batch loop of src/main.py lines 119-135 under an environment `fails`
telling which batch indices raise.  Returns the calls issued (the raising
one included), the calls that committed, and whether an exception escaped
the loop into the except block. -/
def processBatches (fails : Nat → Bool) : Nat → List (List Row) →
    List UpsertCall × List UpsertCall × Bool
  | _, [] => ([], [], false)
  | k, b :: rest =>
      if fails k then ([mkCall b], [], true)
      else
        let r := processBatches fails (k + 1) rest
        (mkCall b :: r.1, mkCall b :: r.2.1, r.2.2)

/-- The writer's observable outcome. -/
structure WriterRun where
  /-- Upsert calls issued, in order, the raising one included. -/
  attempted : List UpsertCall
  /-- Upsert calls that completed without raising. -/
  committed : List UpsertCall
  /-- The except block of src/main.py lines 139-141 printed the error. -/
  errorReported : Bool
  /-- The line "All batches uploaded successfully." was printed. -/
  printedAllUploaded : Bool
  /-- The line "DataFrame is empty. Nothing to upload." was printed. -/
  printedEmpty : Bool
  /-- The function returned to its caller (it always does: every exception
  of the try block is caught on src/main.py line 139). -/
  returnedNormally : Bool
deriving DecidableEq, Repr

/-- Embedding of `upload_dataframe_to_supabase` (src/main.py lines 101-141). -/
def upload_dataframe_to_supabase (df : DataFrame) (fails : Nat → Bool) :
    WriterRun :=
  if df.rows.isEmpty then
    ⟨[], [], false, false, true, true⟩
  else
    let df_cleaned := dfReplace df
    let records := to_records df_cleaned
    let r := processBatches fails 0 (batchesOf records)
    ⟨r.1, r.2.1, r.2.2, !r.2.2, false, true⟩

/-- The orchestrator's observable outcome. -/
structure MainRun where
  /-- The handle list the fetcher returned. -/
  fetched : List String
  /-- Whether the builder stage ran. -/
  builderRan : Bool
  /-- The writer's run, when the writer stage ran. -/
  writer : Option WriterRun
  /-- The line "Script finished due to no files being found." was printed. -/
  printedNoFiles : Bool
  /-- The line "Script finished." was printed. -/
  printedFinished : Bool
  /-- main returned normally (no exception escaped it). -/
  exitedNormally : Bool
deriving DecidableEq, Repr

/-- Embedding of `main` (src/main.py lines 144-162). -/
def mainRun (input : FetchInput) (read_csv : String → DataFrame)
    (fails : Nat → Bool) : MainRun :=
  let csv_file_objects := download_and_unzip_data input
  if csv_file_objects.isEmpty then
    ⟨csv_file_objects, false, none, true, false, true⟩
  else
    let product_dataframe := combine_csvs_to_dataframe csv_file_objects read_csv
    let w := upload_dataframe_to_supabase product_dataframe fails
    ⟨csv_file_objects, true, some w, false, true, true⟩

/-- Python truthiness of an environment lookup: os.environ.get returns None
when the variable is absent, and None and the empty string are falsy. -/
def pyTruthy : Option String → Bool
  | none => false
  | some s => !s.isEmpty

/-- Outcome of the module-level configuration guard (src/main.py lines 19-24). -/
structure StartupRun where
  /-- The diagnostic "Error: Supabase URL and Key must be set..." was printed. -/
  printedConfigError : Bool
  /-- exit() was called, ending the process before any further work. -/
  exited : Bool
  /-- The process exit status.  Python's bare exit() raises SystemExit with
  value None, which terminates the interpreter with status 0. -/
  exitCode : Nat
deriving DecidableEq, Repr

/-- The whole program: the module-level guard (src/main.py lines 19-24),
then, only when it passes, main.  The second component is the orchestrator
run, none when the guard halted the process first. -/
def program (url key : Option String) (input : FetchInput)
    (read_csv : String → DataFrame) (fails : Nat → Bool) :
    StartupRun × Option MainRun :=
  if !pyTruthy url || !pyTruthy key then
    (⟨true, true, 0⟩, none)
  else
    (⟨false, false, 0⟩, some (mainRun input read_csv fails))

/-- A heap of DataFrame objects, for tracking which pandas calls mutate
their receiver in place and which allocate a fresh object.  References are
indices into the list. -/
abbrev DfHeap := List DataFrame

/-- pandas DataFrame.replace as an object operation: with inplace true it
overwrites the receiver, otherwise it allocates a fresh frame and returns
a reference to it.  The source (src/main.py line 113) does not pass the
inplace flag, whose pandas default is false. -/
def pdReplaceOp (inplace : Bool) (h : DfHeap) (ref : Nat) : DfHeap × Nat :=
  let newDf := dfReplace (h.getD ref default)
  if inplace then (h.set ref newDf, ref) else (h ++ [newDf], h.length)

/-- The writer of src/main.py lines 101-141 re-run over the object heap:
the caller's frame lives at `dfRef`; line 113 binds the fresh frame
returned by replace to the local name df_cleaned and the rest of the body
only reads that fresh frame.  Returns the heap after the call and the
writer's observable run. -/
def upload_heap (h : DfHeap) (dfRef : Nat) (fails : Nat → Bool) :
    DfHeap × WriterRun :=
  let df := h.getD dfRef default
  if df.rows.isEmpty then
    (h, ⟨[], [], false, false, true, true⟩)
  else
    let hr := pdReplaceOp false h dfRef
    let df_cleaned := hr.1.getD hr.2 default
    let r := processBatches fails 0 (batchesOf (to_records df_cleaned))
    (hr.1, ⟨r.1, r.2.1, r.2.2, !r.2.2, false, true⟩)

/-- The value of the unique ID column of a row. -/
def rowId (idCol : String) (r : Row) : Option Cell :=
  (r.lookup idCol)

/-- Modelled from the spec: the destination store's row-level upsert for a
single incoming row, which is not part of src/ (it is Supabase's conflict
resolution on the on_conflict column).  Per the spec, a row whose ID
already exists in the destination overwrites the existing row in place,
and a row with a new ID is inserted. -/
def upsertOne (idCol : String) (table : List Row) (r : Row) : List Row :=
  if table.any (fun t => decide (rowId idCol t = rowId idCol r)) then
    table.map (fun t => if rowId idCol t = rowId idCol r then r else t)
  else
    table ++ [r]

/-- Modelled from the spec: the destination store's upsert of one batch,
applied row by row in batch order. -/
def upsertRows (idCol : String) (table : List Row) (batch : List Row) :
    List Row :=
  batch.foldl (upsertOne idCol) table

/-- A concrete 1200-row unified table (the spec's three-batch scenario). -/
def wdf1200 : DataFrame :=
  ⟨List.replicate 1200 [("DSLD ID", Cell.val "A1")]⟩

/-- A concrete single-row table for small witnesses. -/
def wdf1 : DataFrame :=
  ⟨[[("DSLD ID", Cell.val "A1"), ("Product Name", Cell.val "VitC")]]⟩

/-- A concrete table holding both missing-value sentinels. -/
def wdfNA : DataFrame :=
  ⟨[[("DSLD ID", Cell.val "A1"), ("Product Name", Cell.pdNA),
     ("Bar Code", Cell.npNaN)]]⟩

/-- A concrete member listing: one matching member, one non-matching. -/
def wMembers : List MemberInfo :=
  [⟨"ProductOverview.csv"⟩, ⟨"Ingredients.csv"⟩]

/-- A concrete read_csv environment returning the single-row table. -/
def wRead1 : String → DataFrame := fun _ => wdf1

/-- A failure environment where every upsert call raises. -/
def wFailAll : Nat → Bool := fun _ => true

/-- A failure environment where no upsert call raises. -/
def wFailNone : Nat → Bool := fun _ => false

/-- A failure environment where exactly the second batch (index 1) raises. -/
def wFailSecond : Nat → Bool := fun k => k == 1

/-- The writer run of the concrete scenario in which the only upsert call
raises: one matching member, a single-row table, every call failing. -/
def wWriterErr : WriterRun :=
  upload_dataframe_to_supabase
    (combine_csvs_to_dataframe (download_and_unzip_data (.ok wMembers)) wRead1)
    wFailAll

/-- A one-frame heap holding the sentinel-bearing table, for the heap
model of the writer. -/
def wHeapNA : DfHeap := [wdfNA]

/-- The upsert call of the single-batch run on the one-row table. -/
def wCall : UpsertCall := mkCall (to_records (dfReplace wdf1))

/-! ### Helper lemmas -/

theorem renameColumn_id (c : String) : renameColumn c = c := by
  unfold renameColumn column_mapping
  by_cases h1 : c = "URL"
  · simp [List.lookup, h1]
  all_goals simp only [List.lookup]
  all_goals repeat' split
  all_goals simp_all [beq_iff_eq]

theorem dfRename_id (df : DataFrame) : dfRename df = df := by
  unfold dfRename
  cases df with
  | mk rows =>
    simp [renameColumn_id]

theorem batchesOf_nil : batchesOf [] = [] := by
  simp [batchesOf, pyRange, batch_size]

theorem batchesOf_step (l : List Row) (h : l ≠ []) :
    batchesOf l = l.take batch_size :: batchesOf (l.drop batch_size) := by
  have hL : 0 < l.length := List.length_pos.mpr h
  have hm : (l.length - 0 + batch_size - 1) / batch_size
      = ((l.drop batch_size).length - 0 + batch_size - 1) / batch_size + 1 := by
    simp only [List.length_drop, batch_size]
    omega
  simp only [batchesOf, pyRange, hm, List.range_succ_eq_map, List.map_cons,
    List.map_map]
  refine congrArg₂ List.cons (by simp) ?_
  apply List.map_congr_left
  intro i _
  simp only [Function.comp_apply, Nat.succ_eq_add_one]
  rw [List.drop_drop]
  congr 2
  ring

theorem batchesOf_length (l : List Row) :
    (batchesOf l).length = (l.length + batch_size - 1) / batch_size := by
  simp [batchesOf, pyRange]

theorem batchesOf_flatten : ∀ (n : Nat) (l : List Row), l.length ≤ n →
    (batchesOf l).flatten = l := by
  intro n
  induction n with
  | zero =>
    intro l h
    have hl : l = [] := List.length_eq_zero.mp (Nat.le_zero.mp h)
    subst hl
    simp [batchesOf_nil]
  | succ n ih =>
    intro l h
    rcases eq_or_ne l [] with rfl | hne
    · simp [batchesOf_nil]
    · rw [batchesOf_step l hne]
      rw [List.flatten_cons, ih (l.drop batch_size)
        (by simp only [List.length_drop, batch_size]; omega)]
      exact List.take_append_drop _ _

theorem batchesOf_getD (l : List Row) (j : Nat)
    (hj : j < (batchesOf l).length) :
    (batchesOf l).getD j [] = (l.drop (j * batch_size)).take batch_size := by
  rw [List.getD_eq_getElem _ _ hj]
  simp [batchesOf, pyRange]

theorem batchesOf_getD_length (l : List Row) (j : Nat)
    (hj : j + 1 < (batchesOf l).length) :
    ((batchesOf l).getD j []).length = batch_size := by
  rw [batchesOf_getD l j (by omega)]
  rw [batchesOf_length] at hj
  simp only [List.length_take, List.length_drop, batch_size] at *
  omega

theorem processBatches_ok (fails : Nat → Bool) :
    ∀ (bs : List (List Row)) (i : Nat),
    (∀ j, j < bs.length → fails (i + j) = false) →
    processBatches fails i bs = (bs.map mkCall, bs.map mkCall, false) := by
  intro bs
  induction bs with
  | nil =>
    intro i _
    simp [processBatches]
  | cons b rest ih =>
    intro i h
    have h0 : fails i = false := by simpa using h 0 (by simp)
    have hrest : ∀ j, j < rest.length → fails (i + 1 + j) = false := by
      intro j hj
      have := h (j + 1) (by simpa using Nat.succ_lt_succ hj)
      have e : i + (j + 1) = i + 1 + j := by omega
      rwa [e] at this
    simp [processBatches, h0, ih (i + 1) hrest]

theorem processBatches_fail (fails : Nat → Bool) :
    ∀ (bs : List (List Row)) (i k : Nat), k < bs.length →
    fails (i + k) = true →
    (∀ j, j < k → fails (i + j) = false) →
    processBatches fails i bs =
      ((bs.take (k + 1)).map mkCall, (bs.take k).map mkCall, true) := by
  intro bs
  induction bs with
  | nil =>
    intro i k hk
    simp at hk
  | cons b rest ih =>
    intro i k hk hf hpre
    cases k with
    | zero =>
      have h0 : fails i = true := by simpa using hf
      simp [processBatches, h0]
    | succ k =>
      have h0 : fails i = false := by simpa using hpre 0 (Nat.succ_pos k)
      have hf1 : fails (i + 1 + k) = true := by
        have e : i + (k + 1) = i + 1 + k := by omega
        rwa [e] at hf
      have hpre1 : ∀ j, j < k → fails (i + 1 + j) = false := by
        intro j hj
        have := hpre (j + 1) (by omega)
        have e : i + (j + 1) = i + 1 + j := by omega
        rwa [e] at this
      simp [processBatches, h0,
        ih (i + 1) k (by simpa using hk) hf1 hpre1]

theorem dfReplace_rows_length (df : DataFrame) :
    (dfReplace df).rows.length = df.rows.length := by
  simp [dfReplace]

theorem map_batch_map_mkCall (bs : List (List Row)) :
    (bs.map mkCall).map UpsertCall.batch = bs := by
  rw [List.map_map]
  have h : UpsertCall.batch ∘ mkCall = id := by
    funext b
    rfl
  rw [h, List.map_id]

theorem processBatches_attempted_mem (fails : Nat → Bool) :
    ∀ (bs : List (List Row)) (i : Nat) (c : UpsertCall),
    c ∈ (processBatches fails i bs).1 → ∃ b ∈ bs, c = mkCall b := by
  intro bs
  induction bs with
  | nil =>
    intro i c h
    exact absurd h (List.not_mem_nil c)
  | cons b rest ih =>
    intro i c h
    simp only [processBatches] at h
    split at h
    · simp at h
      exact ⟨b, by simp, h⟩
    · simp only [List.mem_cons] at h
      rcases h with rfl | h
      · exact ⟨b, by simp, rfl⟩
      · obtain ⟨b', hb', rfl⟩ := ih (i + 1) c h
        exact ⟨b', by simp [hb'], rfl⟩

theorem upsertOne_ids_of_present (idCol : String) (t : List Row) (r : Row)
    (h : t.any (fun x => decide (rowId idCol x = rowId idCol r)) = true) :
    (upsertOne idCol t r).map (rowId idCol) = t.map (rowId idCol) := by
  unfold upsertOne
  rw [if_pos h, List.map_map]
  apply List.map_congr_left
  intro x _
  simp only [Function.comp_apply]
  split
  · next heq => exact heq.symm
  · rfl

theorem upsertOne_of_absent (idCol : String) (t : List Row) (r : Row)
    (h : t.any (fun x => decide (rowId idCol x = rowId idCol r)) = false) :
    upsertOne idCol t r = t ++ [r] := by
  unfold upsertOne
  rw [if_neg (by simp [h])]

theorem upsertOne_nodup (idCol : String) (t : List Row) (r : Row)
    (h : (t.map (rowId idCol)).Nodup) :
    ((upsertOne idCol t r).map (rowId idCol)).Nodup := by
  by_cases hc : t.any (fun x => decide (rowId idCol x = rowId idCol r)) = true
  · rw [upsertOne_ids_of_present idCol t r hc]
    exact h
  · have hc' : t.any (fun x => decide (rowId idCol x = rowId idCol r)) = false :=
      Bool.eq_false_iff.mpr hc
    rw [upsertOne_of_absent idCol t r hc', List.map_append]
    refine List.Nodup.append h (by simp) ?_
    intro a ha hmem
    simp only [List.map_cons, List.map_nil, List.mem_singleton] at hmem
    subst hmem
    obtain ⟨x, hx, hxr⟩ := List.mem_map.mp ha
    exact absurd (List.any_eq_true.mpr ⟨x, hx, by simpa using hxr⟩) hc

theorem upsertRows_nodup_aux (idCol : String) :
    ∀ (batch t : List Row), (t.map (rowId idCol)).Nodup →
    ((upsertRows idCol t batch).map (rowId idCol)).Nodup := by
  intro batch
  induction batch with
  | nil =>
    intro t h
    simpa [upsertRows] using h
  | cons r rest ih =>
    intro t h
    simp only [upsertRows, List.foldl_cons]
    exact ih (upsertOne idCol t r) (upsertOne_nodup idCol t r h)

theorem upload_err_props (df : DataFrame) (fails : Nat → Bool) :
    (upload_dataframe_to_supabase df fails).returnedNormally = true
    ∧ ((upload_dataframe_to_supabase df fails).errorReported = true →
       (upload_dataframe_to_supabase df fails).printedAllUploaded = false) := by
  unfold upload_dataframe_to_supabase
  split
  · exact ⟨rfl, by intro h; cases h⟩
  · refine ⟨rfl, ?_⟩
    intro h
    simp only at h ⊢
    rw [h]
    rfl

/-! ### Claim theorems -/

/-- C5: for every well-formed archive, the Archive Fetcher returns exactly
the handles of the members whose name contains the target marker and ends
with .csv — one per matching member, in archive-listing order — and none
for the non-matching members: the result is the in-order filter of the
listing, and its length is the number of matching members. -/
theorem C5_fetcher_filter (members : List MemberInfo) :
    download_and_unzip_data (.ok members)
      = (members.filter (fun m => matchesTarget m.filename)).map
          (fun m => m.filename)
    ∧ (download_and_unzip_data (.ok members)).length
      = members.countP (fun m => matchesTarget m.filename) := by
  have h : download_and_unzip_data (.ok members)
      = (members.filter (fun m => matchesTarget m.filename)).map
          (fun m => m.filename) := by
    unfold download_and_unzip_data
    dsimp only
    split
    · next he => exact (List.isEmpty_iff.mp he).symm
    · rfl
  refine ⟨h, ?_⟩
  rw [h, List.length_map, ← List.countP_eq_length_filter]

/-- C6: a failed download, a malformed archive payload, and a no-match
listing all make the fetcher return the empty list (the exceptions are
caught, none propagates), and on an empty fetch result the orchestrator
runs neither the Builder nor the Writer and ends gracefully, printing its
no-files line. -/
theorem C6_graceful_no_data :
    download_and_unzip_data .requestError = []
    ∧ download_and_unzip_data .badZip = []
    ∧ (∀ (members : List MemberInfo),
        (∀ m ∈ members, matchesTarget m.filename = false) →
        download_and_unzip_data (.ok members) = [])
    ∧ (∀ (input : FetchInput) (read_csv : String → DataFrame)
        (fails : Nat → Bool), download_and_unzip_data input = [] →
        mainRun input read_csv fails = ⟨[], false, none, true, false, true⟩) := by
  refine ⟨rfl, rfl, ?_, ?_⟩
  · intro members hm
    unfold download_and_unzip_data
    dsimp only
    have he : members.filter (fun m => matchesTarget m.filename) = [] :=
      List.filter_eq_nil_iff.mpr (fun m hmem => by simp [hm m hmem])
    simp [he]
  · intro input read_csv fails h
    simp [mainRun, h]

/-- C6 witness: the request-error input yields the empty handle list and a
graceful orchestrator run with no Builder or Writer work. -/
theorem C6_graceful_no_data_witness :
    download_and_unzip_data .requestError = []
    ∧ mainRun .requestError wRead1 wFailNone
        = ⟨[], false, none, true, false, true⟩ :=
  ⟨rfl, C6_graceful_no_data.2.2.2 .requestError wRead1 wFailNone rfl⟩

/-- C7: the Table Builder returns the row-wise concatenation of the parsed
input tables in preserve-then-append order, with no row deduplicated or
dropped (its rows are the flattened rows of the inputs, in order), and on
the empty input list it returns the empty table without error. -/
theorem C7_builder_concat (csv_files : List String)
    (read_csv : String → DataFrame) :
    (combine_csvs_to_dataframe csv_files read_csv).rows
      = ((csv_files.map read_csv).map DataFrame.rows).flatten
    ∧ combine_csvs_to_dataframe [] read_csv = ⟨[]⟩ := by
  constructor
  · unfold combine_csvs_to_dataframe
    dsimp only
    split
    · next he => simp [List.isEmpty_iff.mp he]
    · rw [dfRename_id]
  · rfl

/-- C1: on a non-empty unified table of R rows and batch size 500, a run
with no upsert failures issues exactly ceil(R/500) upsert calls; the calls
carry contiguous chunks in strictly ascending order (the j-th call carries
the slice starting at j*500), every chunk except possibly the last holds
exactly 500 records, and the concatenation of the chunks is the full
record sequence. -/
theorem C1_batching (df : DataFrame) (fails : Nat → Bool)
    (hne : df.rows ≠ []) (hok : ∀ k, fails k = false) :
    (upload_dataframe_to_supabase df fails).attempted.length
      = (df.rows.length + batch_size - 1) / batch_size
    ∧ ((upload_dataframe_to_supabase df fails).attempted.map
        UpsertCall.batch).flatten = to_records (dfReplace df)
    ∧ (∀ j, j + 1 < (upload_dataframe_to_supabase df fails).attempted.length →
        (((upload_dataframe_to_supabase df fails).attempted.map
          UpsertCall.batch).getD j []).length = batch_size)
    ∧ (∀ j, j < (upload_dataframe_to_supabase df fails).attempted.length →
        ((upload_dataframe_to_supabase df fails).attempted.map
          UpsertCall.batch).getD j []
        = ((to_records (dfReplace df)).drop (j * batch_size)).take
            batch_size) := by
  have hemp : df.rows.isEmpty = false := by
    simp [List.isEmpty_iff, hne]
  have hatt : (upload_dataframe_to_supabase df fails).attempted
      = (batchesOf (to_records (dfReplace df))).map mkCall := by
    unfold upload_dataframe_to_supabase
    rw [hemp]
    simp only [Bool.false_eq_true, if_false]
    rw [processBatches_ok fails _ 0 (fun j _ => hok (0 + j))]
  have hbatches : (upload_dataframe_to_supabase df fails).attempted.map
      UpsertCall.batch = batchesOf (to_records (dfReplace df)) := by
    rw [hatt, map_batch_map_mkCall]
  have hlen : (upload_dataframe_to_supabase df fails).attempted.length
      = (batchesOf (to_records (dfReplace df))).length := by
    rw [hatt, List.length_map]
  have hrlen : (to_records (dfReplace df)).length = df.rows.length := by
    simp [to_records, dfReplace_rows_length]
  refine ⟨?_, ?_, ?_, ?_⟩
  · rw [hlen, batchesOf_length, hrlen]
  · rw [hbatches]
    exact batchesOf_flatten (to_records (dfReplace df)).length _ le_rfl
  · intro j hj
    rw [hbatches]
    exact batchesOf_getD_length _ j (by rw [← hlen]; exact hj)
  · intro j hj
    rw [hbatches]
    exact batchesOf_getD _ j (by rw [← hlen]; exact hj)

set_option maxRecDepth 100000 in
/-- C1 witness: the 1200-row table with no failures yields three upsert
calls, as in the spec's three-batch scenario. -/
theorem C1_batching_witness :
    wdf1200.rows ≠ []
    ∧ (∀ k, wFailNone k = false)
    ∧ (upload_dataframe_to_supabase wdf1200 wFailNone).attempted.length
        = (wdf1200.rows.length + batch_size - 1) / batch_size :=
  ⟨by decide, fun _ => rfl,
   (C1_batching wdf1200 wFailNone (by decide) (fun _ => rfl)).1⟩

/-- C2: if the upsert call for the batch of index k raises while all
earlier ones succeeded, the writer issues the calls for batches 0..k and
no call for any later batch (each batch at most once, so no retry), the
error is reported by the except block, the calls for batches 0..k-1 remain
the committed ones (nothing compensates or rolls them back), and the
success line is not printed. -/
theorem C2_abort_on_error (df : DataFrame) (fails : Nat → Bool) (k : Nat)
    (hne : df.rows ≠ [])
    (hk : k < (batchesOf (to_records (dfReplace df))).length)
    (hf : fails k = true)
    (hpre : ∀ j, j < k → fails j = false) :
    (upload_dataframe_to_supabase df fails).attempted
      = ((batchesOf (to_records (dfReplace df))).take (k + 1)).map mkCall
    ∧ (upload_dataframe_to_supabase df fails).attempted.length = k + 1
    ∧ (upload_dataframe_to_supabase df fails).committed
      = ((batchesOf (to_records (dfReplace df))).take k).map mkCall
    ∧ (upload_dataframe_to_supabase df fails).errorReported = true
    ∧ (upload_dataframe_to_supabase df fails).printedAllUploaded = false
    ∧ (upload_dataframe_to_supabase df fails).returnedNormally = true := by
  have hemp : df.rows.isEmpty = false := by
    simp [List.isEmpty_iff, hne]
  have hp := processBatches_fail fails (batchesOf (to_records (dfReplace df)))
    0 k hk (by simpa using hf) (fun j hj => by simpa using hpre j hj)
  have hrun : upload_dataframe_to_supabase df fails
      = ⟨((batchesOf (to_records (dfReplace df))).take (k + 1)).map mkCall,
         ((batchesOf (to_records (dfReplace df))).take k).map mkCall,
         true, false, false, true⟩ := by
    unfold upload_dataframe_to_supabase
    rw [hemp]
    simp only [Bool.false_eq_true, if_false]
    rw [hp]
    rfl
  rw [hrun]
  refine ⟨rfl, ?_, rfl, rfl, rfl, rfl⟩
  simp only [List.length_map, List.length_take]
  omega

set_option maxRecDepth 1000000 in
/-- C2 witness: on the 1200-row table with the second batch raising, the
writer attempts batches one and two only, commits exactly the first, and
reports the error. -/
theorem C2_abort_on_error_witness :
    wdf1200.rows ≠ []
    ∧ (1 : Nat) < (batchesOf (to_records (dfReplace wdf1200))).length
    ∧ wFailSecond 1 = true
    ∧ (∀ j, j < 1 → wFailSecond j = false)
    ∧ (upload_dataframe_to_supabase wdf1200 wFailSecond).attempted.length = 2
    ∧ (upload_dataframe_to_supabase wdf1200 wFailSecond).errorReported
        = true :=
  ⟨by decide, by decide, rfl, by decide,
   (C2_abort_on_error wdf1200 wFailSecond 1 (by decide) (by decide) rfl
     (by decide)).2.1,
   (C2_abort_on_error wdf1200 wFailSecond 1 (by decide) (by decide) rfl
     (by decide)).2.2.2.1⟩

/-- C3 counterexample: in the concrete run where the only upsert call
raises, the writer reports the remote-write error, yet the orchestrator
still prints its normal completion line and main returns normally — the
run does not end with a failure status and nothing terminates abnormally. -/
theorem C3_counterexample :
    ((mainRun (.ok wMembers) wRead1 wFailAll).writer.map
        WriterRun.errorReported).getD false = true
    ∧ (mainRun (.ok wMembers) wRead1 wFailAll).printedFinished = true
    ∧ (mainRun (.ok wMembers) wRead1 wFailAll).exitedNormally = true := by
  decide

/-- C3 (amended): a remote-write error is fatal for the remaining batches
and is reported with its cause, but the writer catches the exception, so
the orchestrator is never terminated abnormally: the writer returns
normally, the success line is not printed, and main still prints its final
completion line and returns normally. -/
theorem C3_error_caught (input : FetchInput) (read_csv : String → DataFrame)
    (fails : Nat → Bool) (w : WriterRun)
    (hw : (mainRun input read_csv fails).writer = some w)
    (he : w.errorReported = true) :
    w.printedAllUploaded = false
    ∧ w.returnedNormally = true
    ∧ (mainRun input read_csv fails).printedFinished = true
    ∧ (mainRun input read_csv fails).exitedNormally = true := by
  by_cases hc : (download_and_unzip_data input).isEmpty
  · simp [mainRun, hc] at hw
  · simp only [mainRun, hc, Bool.false_eq_true, if_false,
      Option.some.injEq] at hw ⊢
    subst hw
    have hp := upload_err_props
      (combine_csvs_to_dataframe (download_and_unzip_data input) read_csv) fails
    exact ⟨hp.2 he, hp.1, trivial, trivial⟩

/-- C3 witness: the concrete failing run discharges the amended claim's
hypotheses. -/
theorem C3_error_caught_witness :
    (mainRun (.ok wMembers) wRead1 wFailAll).writer = some wWriterErr
    ∧ wWriterErr.errorReported = true
    ∧ (mainRun (.ok wMembers) wRead1 wFailAll).printedFinished = true :=
  ⟨by decide, by decide,
   (C3_error_caught (.ok wMembers) wRead1 wFailAll wWriterErr (by decide)
     (by decide)).2.2.1⟩

/-- C4 counterexample: with the store URL absent from the environment, the
guard prints its diagnostic and halts before any work — but the halt is
Python's bare exit(), which terminates the process with status 0, so the
termination is not non-zero-equivalent. -/
theorem C4_counterexample :
    (program none (some "key") .requestError wRead1 wFailNone).1
      = ⟨true, true, 0⟩
    ∧ (program none (some "key") .requestError wRead1 wFailNone).2 = none
    ∧ (program none (some "key") .requestError wRead1 wFailNone).1.exitCode
      = 0 := by
  decide

/-- C4 (amended): whenever the store URL or the store key is absent from
(or empty in) the environment, the program prints the diagnostic and halts
before any network activity — no download, parse, or upsert is performed —
but it terminates via bare exit(), i.e. with exit status 0, not with a
non-zero-equivalent status. -/
theorem C4_config_guard (url key : Option String) (input : FetchInput)
    (read_csv : String → DataFrame) (fails : Nat → Bool)
    (h : pyTruthy url = false ∨ pyTruthy key = false) :
    (program url key input read_csv fails).1 = ⟨true, true, 0⟩
    ∧ (program url key input read_csv fails).2 = none := by
  unfold program
  rcases h with h | h <;> simp [h]

/-- C4 witness: the missing-URL startup discharges the amended claim's
hypothesis. -/
theorem C4_config_guard_witness :
    (pyTruthy none = false ∨ pyTruthy (some "key") = false)
    ∧ (program none (some "key") .badZip wRead1 wFailNone).2 = none :=
  ⟨Or.inl rfl,
   (C4_config_guard none (some "key") .badZip wRead1 wFailNone
     (Or.inl rfl)).2⟩

/-- C8: before conversion to row-records the writer replaces every missing
cell — the not-a-number sentinel np.nan and the missing sentinel pd.NA
alike — with the uniform null marker None, leaving every other cell
unchanged, so that no record handed to an upsert call contains either
placeholder sentinel. -/
theorem C8_null_normalization (df : DataFrame) :
    (dfReplace df).rows
      = df.rows.map (fun r => r.map (fun p =>
          (p.1, if p.2 = Cell.pdNA ∨ p.2 = Cell.npNaN then Cell.pyNone
                else p.2)))
    ∧ ∀ r ∈ to_records (dfReplace df), ∀ p ∈ r,
        Prod.snd p ≠ Cell.pdNA ∧ Prod.snd p ≠ Cell.npNaN := by
  constructor
  · unfold dfReplace
    dsimp only
    apply List.map_congr_left
    intro r _
    apply List.map_congr_left
    intro p _
    cases h : p.2 <;> simp [replaceCell]
  · intro r hr p hp
    simp only [to_records, dfReplace, List.mem_map] at hr
    obtain ⟨r0, _, rfl⟩ := hr
    simp only [List.mem_map] at hp
    obtain ⟨p0, _, rfl⟩ := hp
    cases p0.2 <;> simp [replaceCell]

/-- C8 witness: on the concrete sentinel-bearing table, the normalized
record is a member of the records and its normalized cell is neither
sentinel. -/
theorem C8_null_normalization_witness :
    [("DSLD ID", Cell.val "A1"), ("Product Name", Cell.pyNone),
     ("Bar Code", Cell.pyNone)] ∈ to_records (dfReplace wdfNA)
    ∧ ("Product Name", Cell.pyNone)
        ∈ [("DSLD ID", Cell.val "A1"), ("Product Name", Cell.pyNone),
           ("Bar Code", Cell.pyNone)]
    ∧ Cell.pyNone ≠ Cell.pdNA :=
  ⟨by decide, by decide,
   ((C8_null_normalization wdfNA).2
     [("DSLD ID", Cell.val "A1"), ("Product Name", Cell.pyNone),
      ("Bar Code", Cell.pyNone)] (by decide)
     ("Product Name", Cell.pyNone) (by decide)).1⟩

/-- C9: every upsert call the writer issues targets the single destination
table dsld_supplements with conflict resolution on the DSLD ID column and
carries exactly one chunk of the record sequence; and, under the
spec-modelled store semantics, upserting a row whose ID is already present
overwrites in place (same table length, the row is present afterwards),
upserting a row with a new ID appends it, and upserting a batch into a
table whose IDs are distinct never produces duplicate IDs. -/
theorem C9_upsert_conflict :
    (∀ (df : DataFrame) (fails : Nat → Bool) (c : UpsertCall),
        c ∈ (upload_dataframe_to_supabase df fails).attempted →
        c.tableName = "dsld_supplements"
        ∧ c.onConflict = "\"DSLD ID\""
        ∧ c.batch ∈ batchesOf (to_records (dfReplace df)))
    ∧ (∀ (idCol : String) (t : List Row) (r : Row),
        (t.any (fun x => decide (rowId idCol x = rowId idCol r)) = true →
          (upsertOne idCol t r).length = t.length ∧ r ∈ upsertOne idCol t r)
        ∧ (t.any (fun x => decide (rowId idCol x = rowId idCol r)) = false →
          upsertOne idCol t r = t ++ [r]))
    ∧ (∀ (idCol : String) (t batch : List Row),
        (t.map (rowId idCol)).Nodup →
        ((upsertRows idCol t batch).map (rowId idCol)).Nodup) := by
  refine ⟨?_, ?_, fun idCol t batch h => upsertRows_nodup_aux idCol batch t h⟩
  · intro df fails c hc
    have hmem : ∃ b ∈ batchesOf (to_records (dfReplace df)), c = mkCall b := by
      revert hc
      unfold upload_dataframe_to_supabase
      split
      · intro hc
        exact absurd hc (List.not_mem_nil c)
      · intro hc
        exact processBatches_attempted_mem fails _ 0 c hc
    obtain ⟨b, hb, rfl⟩ := hmem
    exact ⟨rfl, rfl, hb⟩
  · intro idCol t r
    constructor
    · intro h
      constructor
      · unfold upsertOne
        rw [if_pos h]
        simp
      · unfold upsertOne
        rw [if_pos h]
        obtain ⟨x, hx, hxr⟩ := List.any_eq_true.mp h
        refine List.mem_map.mpr ⟨x, hx, ?_⟩
        rw [if_pos (by simpa using hxr)]
    · intro h
      exact upsertOne_of_absent idCol t r h

/-- C9 witness: the single-batch run on the one-row table issues a call
with the destination table name, and upserting a same-ID row into a
one-row table keeps the IDs duplicate-free. -/
theorem C9_upsert_conflict_witness :
    (wCall ∈ (upload_dataframe_to_supabase wdf1 wFailNone).attempted
      ∧ wCall.tableName = "dsld_supplements")
    ∧ ((upsertRows "DSLD ID" [[("DSLD ID", Cell.val "A1")]]
        [[("DSLD ID", Cell.val "A1"), ("Product Name", Cell.val "New")]]).map
          (rowId "DSLD ID")).Nodup :=
  ⟨⟨by decide, (C9_upsert_conflict.1 wdf1 wFailNone wCall (by decide)).1⟩,
   C9_upsert_conflict.2.2 "DSLD ID" [[("DSLD ID", Cell.val "A1")]]
     [[("DSLD ID", Cell.val "A1"), ("Product Name", Cell.val "New")]]
     (by decide)⟩

/-- C10: the writer never mutates its argument: over the object heap, the
frame the caller's reference points to is unchanged after the call — in
the empty no-op case, the success case, and the caught-error case alike —
because the null-normalization allocates a fresh frame (replace is called
without the inplace flag); and the heap run agrees with the pure writer. -/
theorem C10_no_mutation (h : DfHeap) (dfRef : Nat) (fails : Nat → Bool)
    (href : dfRef < h.length) :
    (upload_heap h dfRef fails).1.getD dfRef default = h.getD dfRef default
    ∧ (upload_heap h dfRef fails).2
        = upload_dataframe_to_supabase (h.getD dfRef default) fails := by
  have hrep : pdReplaceOp false h dfRef
      = (h ++ [dfReplace (h.getD dfRef default)], h.length) := rfl
  by_cases hc : (h.getD dfRef default).rows.isEmpty
  · have hc2 : ((h[dfRef]?).getD default).rows = [] := by
      rw [← List.getD_eq_getElem?_getD]
      exact List.isEmpty_iff.mp hc
    simp [upload_heap, upload_dataframe_to_supabase, hc2]
  · constructor
    · simp only [upload_heap, hrep, hc, Bool.false_eq_true, if_false]
      exact List.getD_append h _ default dfRef href
    · simp only [upload_heap, upload_dataframe_to_supabase, hrep, hc,
        Bool.false_eq_true, if_false]
      rw [List.getD_append_right h _ default h.length le_rfl]
      simp

/-- C10 witness: on the one-frame heap holding the sentinel-bearing table,
the caller's frame still holds its original cells (sentinels included)
after the writer returns. -/
theorem C10_no_mutation_witness :
    (0 : Nat) < wHeapNA.length
    ∧ (upload_heap wHeapNA 0 wFailNone).1.getD 0 default
        = wHeapNA.getD 0 default :=
  ⟨by decide, (C10_no_mutation wHeapNA 0 wFailNone (by decide)).1⟩
